import Mathlib

/-!
# Verification of the hologram-liveavatar-agent wizard / credential workflow

Shallow embedding of the stateful core of the repository:

* the data model of `src/models/avatar-config.model.ts` and the SQL schema of
  `src/database/index.ts`;
* the repository operations of `src/database/repositories/creation-session.repo.ts`
  and `src/database/repositories/presentation.repo.ts` (both repositories of the
  second file: `PresentationRepository` and `AvatarConfigRepository`), modelled as
  pure state transformers on an explicit store state `DB`;
* `AvatarWizardService` (`startWizard`, `processInput` and its per-step handlers);
* the access-control paths of `MessageController` (`handleAccessCommand`,
  `handleIdentityProofSubmit`) with external collaborators (credential authority,
  LiveKit session provider) supplied as explicit parameters;
* `CredentialService.createPresentationRequest` and the
  `POST /api/presentation/callback` route of the server entry file.

External calls (catalog fetch, proof request, session creation) are passed in as
`Except`/`Bool` parameters; sent messages and started sessions are collected as
explicit outputs.
-/

namespace LiveAvatar

/-! ## Data model (avatar-config.model.ts, database/index.ts) -/

/-- The wizard step enum (`WizardStep` in avatar-config.model.ts). -/
inductive WizardStep
  | avatar_selection
  | avatar_manual_entry
  | voice_selection
  | voice_manual_entry
  | language_selection
  | name_input
  | prompt_input
  | confirmation
  deriving DecidableEq, Repr

/-- A row of `avatar_creation_sessions` (`AvatarCreationSession`).
`startedAt`/`expiresAt` are not modelled; the `sessions` list of `DB` stands for
the live (non-expired) rows, i.e. exactly what
`CreationSessionRepository.findByConnectionId` can return. -/
structure CreationSession where
  connectionId : String
  currentStep : WizardStep
  selectedAvatarId : Option String := none
  selectedVoiceId : Option String := none
  selectedLanguage : Option String := none
  customName : Option String := none
  systemPrompt : Option String := none
  deriving DecidableEq, Repr

/-- A row of `avatar_configs` (`AvatarConfig`). Timestamps other than
`credentialIssuedAt` are dropped; `credentialIssuedAt` is kept as an abstract
`Option Nat` instant because only its presence is ever branched on. -/
structure AvatarConfig where
  id : String
  connectionId : String
  name : String
  avatarId : String
  voiceId : String
  language : String
  systemPrompt : Option String := none
  credentialDefinitionId : Option String := none
  credentialIssuedAt : Option Nat := none
  deriving DecidableEq, Repr

/-- `PresentationStatus` of avatar-config.model.ts. -/
inductive PresentationStatus
  | pending
  | verified
  | rejected
  | expired
  deriving DecidableEq, Repr

/-- A row of `pending_presentations` (`PendingPresentation`); `verifiedAt` as an
abstract instant, `createdAt`/`expiresAt` dropped (never branched on in the
modelled paths). -/
structure PendingPresentation where
  id : String
  proofExchangeId : String
  connectionId : Option String := none
  avatarConfigId : String
  status : PresentationStatus := .pending
  verifiedAt : Option Nat := none
  deriving DecidableEq, Repr

/-- The three persisted stores of the core (§ the three tables created in
`initializeDatabase`). -/
structure DB where
  sessions : List CreationSession
  configs : List AvatarConfig
  presentations : List PendingPresentation
  deriving DecidableEq, Repr

/-! ## JavaScript string primitives

The runtime's `trim()` / `toLowerCase()` and PostgreSQL's `LOWER`, modelled on
the character list of the string so that concrete instances reduce inside the
kernel. -/

/-- JavaScript `String.prototype.trim`: strip whitespace from both ends. -/
def jsTrim (s : String) : String :=
  String.mk (((s.data.dropWhile Char.isWhitespace).reverse.dropWhile Char.isWhitespace).reverse)

/-- JavaScript `String.prototype.toLowerCase` / SQL `LOWER`, per character. -/
def jsToLower (s : String) : String :=
  String.mk (s.data.map Char.toLower)

/-! ## Repository operations -/

/-- `CreationSessionRepository.findByConnectionId` (the expiry filter is implicit:
`DB.sessions` holds only live rows). -/
def findSession (db : DB) (cid : String) : Option CreationSession :=
  db.sessions.find? (fun s => s.connectionId == cid)

/-- `CreationSessionRepository.create`: upsert that resets every selection field
and puts the step back to the given one (`ON CONFLICT ... DO UPDATE` with all
selection columns set to NULL). -/
def sessionCreate (db : DB) (cid : String) (step : WizardStep) : DB :=
  { db with sessions :=
      { connectionId := cid, currentStep := step } ::
        db.sessions.filter (fun s => !(s.connectionId == cid)) }

/-- `CreationSessionRepository.update` restricted to the field combinations the
wizard actually sends: the caller passes the row transformer corresponding to the
partial `UpdateSessionInput` it uses. -/
def sessionUpdate (db : DB) (cid : String) (f : CreationSession → CreationSession) : DB :=
  { db with sessions := db.sessions.map (fun s => if s.connectionId == cid then f s else s) }

/-- `CreationSessionRepository.delete`. -/
def sessionDelete (db : DB) (cid : String) : DB :=
  { db with sessions := db.sessions.filter (fun s => !(s.connectionId == cid)) }

/-- `AvatarConfigRepository.findById`. -/
def findConfigById (db : DB) (id : String) : Option AvatarConfig :=
  db.configs.find? (fun c => c.id == id)

/-- `AvatarConfigRepository.findByConnectionIdAndName`:
`WHERE connection_id = $1 AND LOWER(name) = LOWER($2)`. -/
def findConfigByConnectionIdAndName (db : DB) (cid name : String) : Option AvatarConfig :=
  db.configs.find? (fun c => c.connectionId == cid && jsToLower c.name == jsToLower name)

/-- `AvatarConfigRepository.create` (the generated UUID is passed in as `newId`;
`credential_definition_id`/`credential_issued_at` start NULL). -/
def configCreate (db : DB) (newId cid name avatarId voiceId language : String)
    (systemPrompt : Option String) : AvatarConfig × DB :=
  let cfg : AvatarConfig :=
    { id := newId, connectionId := cid, name := name, avatarId := avatarId,
      voiceId := voiceId, language := language, systemPrompt := systemPrompt }
  (cfg, { db with configs := db.configs ++ [cfg] })

/-- `PresentationRepository.findByProofExchangeId`. -/
def findPresentationByProofExchangeId (db : DB) (pxid : String) : Option PendingPresentation :=
  db.presentations.find? (fun p => p.proofExchangeId == pxid)

/-- `PresentationRepository.updateByProofExchangeId`: plain
`UPDATE ... WHERE proof_exchange_id = $n` applying whichever of `status` /
`verified_at` the caller supplied. There is deliberately no guard on the current
status, exactly as in the SQL. -/
def updatePresentationByProofExchangeId (db : DB) (pxid : String)
    (status : Option PresentationStatus) (verifiedAt : Option Nat) : DB :=
  { db with presentations := db.presentations.map (fun p =>
      if p.proofExchangeId == pxid then
        { p with
          status := status.getD p.status,
          verifiedAt := match verifiedAt with
            | some t => some t
            | none => p.verifiedAt }
      else p) }

/-! ## JavaScript `parseInt(s, 10)` -/

/-- Decimal value of a digit run. -/
def digitsToNat (cs : List Char) : Nat :=
  cs.foldl (fun acc c => acc * 10 + (c.toNat - '0'.toNat)) 0

/-- The leading digit run of a character list, as a number; `none` when there is
no leading digit. -/
def parseLeadingNat (cs : List Char) : Option Nat :=
  match cs.takeWhile Char.isDigit with
  | [] => none
  | ds => some (digitsToNat ds)

/-- JavaScript `parseInt(s, 10)`: skip leading whitespace, optional sign, then
the longest leading digit run; `NaN` (here `none`) when no digit follows. -/
def jsParseInt (s : String) : Option Int :=
  match s.data.dropWhile Char.isWhitespace with
  | [] => none
  | c :: rest =>
    if c == '-' then (parseLeadingNat rest).map (fun n => -(n : Int))
    else if c == '+' then (parseLeadingNat rest).map (fun n => (n : Int))
    else (parseLeadingNat (c :: rest)).map (fun n => (n : Int))

/-! ## Catalog collaborator (heygen-catalog.service.ts interface) -/

/-- Catalog avatar entry (`HeyGenAvatar`); preview/type fields dropped (never
branched on). -/
structure HeyGenAvatar where
  id : String
  name : String
  gender : String := "unknown"
  deriving DecidableEq, Repr

/-- Catalog voice entry (`HeyGenVoice`). -/
structure HeyGenVoice where
  id : String
  name : String
  language : String := "unknown"
  gender : String := "unknown"
  deriving DecidableEq, Repr

/-- An entry of the fixed `SUPPORTED_LANGUAGES` table of avatar-wizard.service.ts. -/
structure LanguageOption where
  code : String
  name : String
  deriving DecidableEq, Repr

/-- The `SUPPORTED_LANGUAGES` constant of avatar-wizard.service.ts. -/
def SUPPORTED_LANGUAGES : List LanguageOption :=
  [⟨"en", "English"⟩, ⟨"es", "Spanish"⟩, ⟨"fr", "French"⟩, ⟨"de", "German"⟩,
   ⟨"zh", "Chinese"⟩, ⟨"ja", "Japanese"⟩, ⟨"ko", "Korean"⟩, ⟨"pt", "Portuguese"⟩,
   ⟨"it", "Italian"⟩]

/-! ## Wizard Engine (avatar-wizard.service.ts) -/

/-- `WizardResponse` of avatar-wizard.service.ts. -/
structure WizardResponse where
  message : String
  isComplete : Bool := false
  avatarConfig : Option AvatarConfig := none
  sessionEnded : Bool := false
  deriving DecidableEq, Repr

/-- The wizard's environment: the cached catalog lists (`avatarsCache` /
`voicesCache`, i.e. the results of `listAvatars()` / `listVoices()`), the
by-id display-name lookups (`getAvatarById(...)?.name`, `getVoiceById(...)?.name`)
and the UUID that `AvatarConfigRepository.create` will assign next. -/
structure WizardEnv where
  avatars : List HeyGenAvatar
  voices : List HeyGenVoice
  avatarNameById : String → Option String
  voiceNameById : String → Option String
  newConfigId : String

/-- `formatAvatarList` of avatar-wizard.service.ts. -/
def formatAvatarList (avatars : List HeyGenAvatar) : String :=
  String.intercalate "\n"
    (avatars.enum.map (fun p => toString (p.1 + 1) ++ ". " ++ p.2.name ++ " (" ++ p.2.gender ++ ")"))

/-- `formatVoiceList` of avatar-wizard.service.ts. -/
def formatVoiceList (voices : List HeyGenVoice) : String :=
  String.intercalate "\n"
    (voices.enum.map (fun p =>
      toString (p.1 + 1) ++ ". " ++ p.2.name ++ " (" ++ p.2.language ++ ", " ++ p.2.gender ++ ")"))

/-- The numbered language list rendered at the language step:
`SUPPORTED_LANGUAGES.map((lang, i) => ...).join('\n')`. -/
def languageListString : String :=
  String.intercalate "\n"
    (SUPPORTED_LANGUAGES.enum.map (fun p => toString (p.1 + 1) ++ ". " ++ p.2.name))

/-- The out-of-range / non-numeric re-prompt of the three selection steps. -/
def invalidNumberMessage (len : Nat) : String :=
  "Please enter a valid number between 1 and " ++ toString len ++ "."

/-- `handleAvatarSelection`. -/
def handleAvatarSelection (env : WizardEnv) (db : DB) (cid : String) (input : String) :
    WizardResponse × DB :=
  let availableAvatars := env.avatars.take 20
  match jsParseInt (jsTrim input) with
  | none => ({ message := invalidNumberMessage availableAvatars.length }, db)
  | some selection =>
    if h : selection < 1 ∨ selection > (availableAvatars.length : Int) then
      ({ message := invalidNumberMessage availableAvatars.length }, db)
    else
      let selectedAvatar := availableAvatars.get ⟨(selection - 1).toNat, by omega⟩
      if selectedAvatar.id == "MANUAL_ENTRY" then
        ({ message := "Step 1/5: Enter Avatar ID\n\nPlease enter your HeyGen avatar ID (e.g., \"9650a758-1085-4d49-8bf3-f347565ec229\"):" },
         sessionUpdate db cid (fun s => { s with currentStep := .avatar_manual_entry }))
      else
        ({ message := "Avatar: " ++ selectedAvatar.name ++
             " selected.\n\nStep 2/5: Choose a Voice\n\n" ++ formatVoiceList (env.voices.take 20) ++
             "\n\nReply with the number of your choice." },
         sessionUpdate db cid (fun s =>
           { s with selectedAvatarId := some selectedAvatar.id, currentStep := .voice_selection }))

/-- `handleAvatarManualEntry`. -/
def handleAvatarManualEntry (env : WizardEnv) (db : DB) (cid : String) (input : String) :
    WizardResponse × DB :=
  let avatarId := jsTrim input
  if avatarId == "" || avatarId.length < 8 then
    ({ message := "Please enter a valid avatar ID (should be a UUID like \"9650a758-1085-4d49-8bf3-f347565ec229\"):" }, db)
  else
    ({ message := "Avatar ID: " ++ avatarId ++ " set.\n\nStep 2/5: Choose a Voice\n\n" ++
         formatVoiceList (env.voices.take 20) ++ "\n\nReply with the number of your choice." },
     sessionUpdate db cid (fun s =>
       { s with selectedAvatarId := some avatarId, currentStep := .voice_selection }))

/-- `handleVoiceSelection`. -/
def handleVoiceSelection (env : WizardEnv) (db : DB) (cid : String) (input : String) :
    WizardResponse × DB :=
  let availableVoices := env.voices.take 20
  match jsParseInt (jsTrim input) with
  | none => ({ message := invalidNumberMessage availableVoices.length }, db)
  | some selection =>
    if h : selection < 1 ∨ selection > (availableVoices.length : Int) then
      ({ message := invalidNumberMessage availableVoices.length }, db)
    else
      let selectedVoice := availableVoices.get ⟨(selection - 1).toNat, by omega⟩
      if selectedVoice.id == "MANUAL_ENTRY" then
        ({ message := "Step 2/5: Enter Voice ID\n\nPlease enter your HeyGen voice ID (e.g., \"b952f553-f7f3-4e52-8625-86b4c415384f\"):" },
         sessionUpdate db cid (fun s => { s with currentStep := .voice_manual_entry }))
      else
        ({ message := "Voice: " ++ selectedVoice.name ++ " (" ++ selectedVoice.language ++
             ") selected.\n\nStep 3/5: Select Language\n\n" ++ languageListString ++
             "\n\nReply with the number of your choice." },
         sessionUpdate db cid (fun s =>
           { s with selectedVoiceId := some selectedVoice.id, currentStep := .language_selection }))

/-- `handleVoiceManualEntry`. -/
def handleVoiceManualEntry (db : DB) (cid : String) (input : String) :
    WizardResponse × DB :=
  let voiceId := jsTrim input
  if voiceId == "" || voiceId.length < 8 then
    ({ message := "Please enter a valid voice ID (should be a UUID like \"b952f553-f7f3-4e52-8625-86b4c415384f\"):" }, db)
  else
    ({ message := "Voice ID: " ++ voiceId ++ " set.\n\nStep 3/5: Select Language\n\n" ++
         languageListString ++ "\n\nReply with the number of your choice." },
     sessionUpdate db cid (fun s =>
       { s with selectedVoiceId := some voiceId, currentStep := .language_selection }))

/-- `handleLanguageSelection`. -/
def handleLanguageSelection (db : DB) (cid : String) (input : String) :
    WizardResponse × DB :=
  match jsParseInt (jsTrim input) with
  | none => ({ message := invalidNumberMessage SUPPORTED_LANGUAGES.length }, db)
  | some selection =>
    if h : selection < 1 ∨ selection > (SUPPORTED_LANGUAGES.length : Int) then
      ({ message := invalidNumberMessage SUPPORTED_LANGUAGES.length }, db)
    else
      let selectedLanguage := SUPPORTED_LANGUAGES.get ⟨(selection - 1).toNat, by omega⟩
      ({ message := "Language: " ++ selectedLanguage.name ++
           " selected.\n\nStep 4/5: Name Your Avatar\n\nGive your avatar a memorable name (e.g., \"Business Helper\", \"Travel Guide\")." },
       sessionUpdate db cid (fun s =>
         { s with selectedLanguage := some selectedLanguage.code, currentStep := .name_input }))

/-- `handleNameInput`. -/
def handleNameInput (db : DB) (cid : String) (input : String) : WizardResponse × DB :=
  let name := jsTrim input
  if name == "" || name.length < 2 then
    ({ message := "Please enter a name with at least 2 characters." }, db)
  else if name.length > 100 then
    ({ message := "Name is too long. Please use 100 characters or less." }, db)
  else
    match findConfigByConnectionIdAndName db cid name with
    | some _ =>
      ({ message := "You already have an avatar named \"" ++ name ++ "\". Please choose a different name." }, db)
    | none =>
      ({ message := "Name: \"" ++ name ++ "\" set.\n\nStep 5/5: Personality Prompt (Optional)\n\nDescribe how your avatar should behave (e.g., \"You are a friendly business consultant who helps with strategy.\").\n\nOr type \"skip\" to use the default personality." },
       sessionUpdate db cid (fun s =>
         { s with customName := some name, currentStep := .prompt_input }))

/-- How a nullable reference renders inside the confirmation summary
(`avatar?.name || session.selectedAvatarId` in a template literal; an absent
value prints as the word null). -/
def displayRef (lookup : String → Option String) : Option String → String
  | some rid => (lookup rid).getD rid
  | none => "null"

/-- `handlePromptInput`. -/
def handlePromptInput (env : WizardEnv) (db : DB) (cid : String) (input : String) :
    WizardResponse × DB :=
  let prompt := jsTrim input
  let isSkip := jsToLower prompt == "skip"
  let db1 := sessionUpdate db cid (fun s =>
    { s with systemPrompt := if isSkip then none else some prompt, currentStep := .confirmation })
  match findSession db1 cid with
  | none =>
    ({ message := "Session expired. Please start again with /create.", sessionEnded := true }, db1)
  | some updatedSession =>
    let avatarName := displayRef env.avatarNameById updatedSession.selectedAvatarId
    let voiceName := displayRef env.voiceNameById updatedSession.selectedVoiceId
    let languageName :=
      match updatedSession.selectedLanguage with
      | some code =>
        (((SUPPORTED_LANGUAGES.find? (fun l => l.code == code)).map LanguageOption.name).getD code)
      | none => "null"
    let promptSummary :=
      if isSkip then "(Default)"
      else "\"" ++ String.mk (prompt.data.take 100) ++
        (if prompt.length > 100 then "..." else "") ++ "\""
    ({ message := "Configuration Complete!\n\nName: " ++
         (updatedSession.customName.getD "null") ++ "\nAppearance: " ++ avatarName ++
         "\nVoice: " ++ voiceName ++ "\nLanguage: " ++ languageName ++
         "\nPersonality: " ++ promptSummary ++
         "\n\nReply \"confirm\" to create your avatar and receive your ownership credential.\nReply \"cancel\" to discard." },
     db1)

/-- `handleConfirmation`. -/
def handleConfirmation (env : WizardEnv) (db : DB) (cid : String)
    (session : CreationSession) (input : String) : WizardResponse × DB :=
  let confirmation := jsToLower (jsTrim input)
  if !(confirmation == "confirm") && !(confirmation == "yes") then
    if confirmation == "cancel" || confirmation == "no" then
      ({ message := "Avatar creation cancelled.", sessionEnded := true }, sessionDelete db cid)
    else
      ({ message := "Please reply \"confirm\" to create the avatar or \"cancel\" to discard." }, db)
  else
    match session.selectedAvatarId, session.selectedVoiceId,
      session.selectedLanguage, session.customName with
    | some avatarId, some voiceId, some language, some customName =>
      let created := configCreate db env.newConfigId cid customName avatarId voiceId language
        session.systemPrompt
      ({ message := "Creating your avatar \"" ++ created.1.name ++ "\"...",
         isComplete := true, avatarConfig := some created.1 },
       sessionDelete created.2 cid)
    | _, _, _, _ =>
      ({ message := "Session is incomplete. Please start again with /create.",
         sessionEnded := true }, db)

/-- `AvatarWizardService.processInput`. -/
def processInput (env : WizardEnv) (db : DB) (cid : String) (input : String) :
    WizardResponse × DB :=
  match findSession db cid with
  | none =>
    ({ message := "No active creation session. Use /create to start creating an avatar.",
       sessionEnded := true }, db)
  | some session =>
    let trimmedInput := jsToLower (jsTrim input)
    if trimmedInput == "cancel" || trimmedInput == "/cancel" then
      ({ message := "Avatar creation cancelled.", sessionEnded := true }, sessionDelete db cid)
    else
      match session.currentStep with
      | .avatar_selection => handleAvatarSelection env db cid input
      | .avatar_manual_entry => handleAvatarManualEntry env db cid input
      | .voice_selection => handleVoiceSelection env db cid input
      | .voice_manual_entry => handleVoiceManualEntry db cid input
      | .language_selection => handleLanguageSelection db cid input
      | .name_input => handleNameInput db cid input
      | .prompt_input => handlePromptInput env db cid input
      | .confirmation => handleConfirmation env db cid session input

/-- `AvatarWizardService.startWizard`: the session row is created (or reset)
first, then the catalog is fetched; `catalog` carries the outcome of
`heygenCatalogService.listAvatars()`. -/
def startWizard (db : DB) (cid : String) (catalog : Except String (List HeyGenAvatar)) :
    WizardResponse × DB :=
  let db1 := sessionCreate db cid .avatar_selection
  match catalog with
  | .error msg =>
    ({ message := "Failed to load avatars. Please try again later.\nError: " ++ msg,
       sessionEnded := true }, db1)
  | .ok avatars =>
    ({ message := "Welcome to Avatar Creation! Let's build your personalized AI avatar.\n\nStep 1/5: Choose Your Avatar Appearance\n\n" ++
         formatAvatarList (avatars.take 20) ++
         "\n\nReply with the number of your choice (e.g., \"1\")" }, db1)

/-- `AvatarWizardService.cancelWizard`. -/
def cancelWizard (db : DB) (cid : String) : WizardResponse × DB :=
  match findSession db cid with
  | some _ =>
    ({ message := "Avatar creation cancelled.", sessionEnded := true }, sessionDelete db cid)
  | none => ({ message := "No active creation session.", sessionEnded := true }, db)

/-- `AvatarWizardService.hasActiveSession`. -/
def hasActiveSession (db : DB) (cid : String) : Bool :=
  (findSession db cid).isSome

/-! ## Command Router / access control (message.controller.ts) -/

/-- One item of an outbound `media` message. -/
structure MediaItem where
  mimeType : String
  uri : String
  title : String
  description : String
  openingMode : String
  deriving DecidableEq, Repr

/-- An outbound message sent through `vsAgentService.sendMessage`. -/
inductive OutMsg
  | text (connectionId content : String)
  | media (connectionId : String) (items : List MediaItem)
  deriving DecidableEq, Repr

/-- LiveKit credentials returned by `liveAvatarService.createCustomSession`. -/
structure SessionCreds where
  livekitUrl : String
  livekitToken : String
  deriving DecidableEq, Repr

/-- Observable effect of a controller handler: the messages it sent, the
identity-proof requests it issued (connection id, avatar config id) and the
avatar-config ids for which it started a LiveKit session. -/
structure HandlerOutput where
  messages : List OutMsg
  proofRequests : List (String × String)
  sessionStarts : List String
  deriving Repr

/-- External collaborators of the access-control handlers:
`credentialService.isConfigured()`, the outcome of
`credentialService.requestIdentityProof` and the outcome of
`liveAvatarService.createCustomSession`; `enc` is the runtime's
`encodeURIComponent`. -/
structure AccessEnv where
  credentialServiceConfigured : Bool
  proofRequestResult : Except String Unit
  customSession : Except String SessionCreds
  enc : String → String

/-- The LiveKit Meet URL composed by the controller. -/
def sessionUrlOf (env : AccessEnv) (creds : SessionCreds) : String :=
  "https://meet.livekit.io/custom?liveKitUrl=" ++ env.enc creds.livekitUrl ++
    "&token=" ++ env.enc creds.livekitToken

/-- `MessageController.startCustomAvatarSession`. -/
def startCustomAvatarSession (env : AccessEnv) (cid : String) (avatar : AvatarConfig) :
    HandlerOutput :=
  match env.customSession with
  | .ok creds =>
    { messages :=
        [.text cid ("Starting session with \"" ++ avatar.name ++ "\"..."),
         .media cid [⟨"text/html", sessionUrlOf env creds, "Start " ++ avatar.name,
           "Tap to begin your custom avatar session", "fullScreen"⟩]],
      proofRequests := [], sessionStarts := [avatar.id] }
  | .error e =>
    { messages := [.text cid ("Failed to start session: " ++ e)],
      proofRequests := [], sessionStarts := [] }

/-- `MessageController.handleAccessCommand`. The verification gate is
`credentialService.isConfigured() && avatar.credentialIssuedAt`; when the proof
request throws, the handler falls back to direct access (the "To access ..."
message has already been sent at that point). -/
def handleAccessCommand (env : AccessEnv) (db : DB) (cid avatarName : String) :
    HandlerOutput :=
  if avatarName == "" then
    { messages := [.text cid "Please specify an avatar name. Example: /access Business Helper"],
      proofRequests := [], sessionStarts := [] }
  else
    match findConfigByConnectionIdAndName db cid avatarName with
    | none =>
      { messages := [.text cid ("Avatar \"" ++ avatarName ++
          "\" not found.\n\nUse /my-avatars to see your available avatars.")],
        proofRequests := [], sessionStarts := [] }
    | some avatar =>
      if env.credentialServiceConfigured && avatar.credentialIssuedAt.isSome then
        let askMsg : OutMsg :=
          .text cid ("To access \"" ++ avatar.name ++ "\", please present your ownership credential.")
        match env.proofRequestResult with
        | .ok _ =>
          { messages := [askMsg], proofRequests := [(cid, avatar.id)], sessionStarts := [] }
        | .error _ =>
          let direct := startCustomAvatarSession env cid avatar
          { messages := askMsg :: direct.messages, proofRequests := [],
            sessionStarts := direct.sessionStarts }
      else
        startCustomAvatarSession env cid avatar

/-- A claim attached to a submitted proof item. -/
structure ProofClaim where
  name : String
  value : String
  deriving DecidableEq, Repr

/-- One entry of `submittedProofItems`; an absent `claims` array behaves like an
empty one (`claims?.find` on `undefined` yields `undefined`, as does `find` on
`[]`). -/
structure ProofItem where
  verified : Bool
  claims : List ProofClaim := []
  deriving DecidableEq, Repr

/-- `MessageController.handleIdentityProofSubmit`. An empty (or missing) item
list is only logged: the function returns without sending anything. Only the
first item is inspected. -/
def handleIdentityProofSubmit (env : AccessEnv) (db : DB) (cid : String)
    (submittedProofItems : List ProofItem) : HandlerOutput :=
  match submittedProofItems with
  | [] => { messages := [], proofRequests := [], sessionStarts := [] }
  | proofItem :: _ =>
    if !proofItem.verified then
      { messages := [.text cid "Credential verification failed. Please try again with a valid credential."],
        proofRequests := [], sessionStarts := [] }
    else
      let avatarConfigIdClaim := proofItem.claims.find? (fun c => c.name == "avatar_config_id")
      let ownerConnectionIdClaim := proofItem.claims.find? (fun c => c.name == "owner_connection_id")
      match avatarConfigIdClaim with
      | none =>
        { messages := [.text cid "Invalid credential: missing avatar configuration."],
          proofRequests := [], sessionStarts := [] }
      | some idClaim =>
        if idClaim.value == "" then
          { messages := [.text cid "Invalid credential: missing avatar configuration."],
            proofRequests := [], sessionStarts := [] }
        else if !(ownerConnectionIdClaim.map ProofClaim.value == some cid) then
          { messages := [.text cid "This credential belongs to a different user."],
            proofRequests := [], sessionStarts := [] }
        else
          match findConfigById db idClaim.value with
          | none =>
            { messages := [.text cid "Avatar configuration not found."],
              proofRequests := [], sessionStarts := [] }
          | some avatarConfig =>
            match env.customSession with
            | .ok creds =>
              { messages :=
                  [.text cid ("Credential verified! Starting session with \"" ++
                     avatarConfig.name ++ "\"..."),
                   .media cid [⟨"text/html", sessionUrlOf env creds,
                     "Start " ++ avatarConfig.name,
                     "Your custom avatar session is ready", "fullScreen"⟩]],
                proofRequests := [], sessionStarts := [avatarConfig.id] }
            | .error e =>
              { messages := [.text cid ("Failed to start session: " ++ e)],
                proofRequests := [], sessionStarts := [] }

/-! ## Credential Coordinator (credential.service.ts) -/

/-- `CredentialService.createPresentationRequest`. The store state is threaded
through untouched: the function performs no repository call (its body is the
configuration check, the outbound `invitation/presentation-request` fetch whose
outcome is `response`, and the return of the parsed correlation id). -/
def createPresentationRequest (credentialDefinitionId : Option String) (db : DB)
    (_avatarConfigId : String) (response : Except String String) :
    Except String (String × DB) :=
  match credentialDefinitionId with
  | none => .error "Credential definition not registered."
  | some _ =>
    match response with
    | .error e => .error ("Failed to create presentation request: " ++ e)
    | .ok proofExchangeId => .ok (proofExchangeId, db)

/-! ## Presentation verification callback (`POST /api/presentation/callback`) -/

/-- The HTTP outcome of the callback route. -/
inductive CallbackResponse
  | okVerificationFailed
  | notFoundPresentation
  | notFoundConfig
  | forbidden
  | success (avatarConfigId avatarName : String)
  deriving DecidableEq, Repr

/-- The `POST /api/presentation/callback` route of the server entry file.
`now` abstracts `new Date()` for the `verified_at` stamp. -/
def presentationCallback (db : DB) (proofExchangeId : String) (verified : Bool)
    (ref : Option String) (claims : List ProofClaim) (now : Nat) :
    CallbackResponse × DB :=
  if !verified then
    (.okVerificationFailed,
     updatePresentationByProofExchangeId db proofExchangeId (some .rejected) none)
  else
    match findPresentationByProofExchangeId db proofExchangeId with
    | none => (.notFoundPresentation, db)
    | some presentation =>
      let db1 := updatePresentationByProofExchangeId db proofExchangeId (some .verified) (some now)
      let avatarConfigId :=
        match ref with
        | some r => if r == "" then presentation.avatarConfigId else r
        | none => presentation.avatarConfigId
      match findConfigById db1 avatarConfigId with
      | none => (.notFoundConfig, db1)
      | some avatarConfig =>
        let ownerClaim := claims.find? (fun c => c.name == "owner_connection_id")
        match ownerClaim, presentation.connectionId with
        | some oc, some pcid =>
          if !(oc.value == pcid) then (.forbidden, db1)
          else (.success avatarConfig.id avatarConfig.name, db1)
        | _, _ => (.success avatarConfig.id avatarConfig.name, db1)

/-! ## Claim theorems -/

/-- Claim C9: with no existing (non-expired) wizard session for the user,
`processInput` returns the NoActiveSession conversational message (not an
exception) and leaves all three stores untouched (the returned store state is
exactly the input one). -/
theorem C9_no_active_session (env : WizardEnv) (db : DB) (cid input : String)
    (h : findSession db cid = none) :
    processInput env db cid input =
      ({ message := "No active creation session. Use /create to start creating an avatar.",
         sessionEnded := true }, db) := by
  simp [processInput, h]

def c9db : DB := { sessions := [], configs := [], presentations := [] }

def c9env : WizardEnv :=
  { avatars := [], voices := [], avatarNameById := fun _ => none,
    voiceNameById := fun _ => none, newConfigId := "" }

/-- Witness for C9 at a concrete empty store. -/
theorem C9_no_active_session_witness :
    processInput c9env c9db "conn-1" "hello" =
      ({ message := "No active creation session. Use /create to start creating an avatar.",
         sessionEnded := true }, c9db) :=
  C9_no_active_session c9env c9db "conn-1" "hello" rfl

/-- Claim C8: whenever a session exists, an input whose trimmed lowercased form
is cancel deletes the session row — regardless of the current step, which is
universally quantified inside `s` — and returns the cancellation
acknowledgment. -/
theorem C8_cancel_any_step (env : WizardEnv) (db : DB) (cid input : String)
    (s : CreationSession) (hfind : findSession db cid = some s)
    (hc : jsToLower (jsTrim input) = "cancel") :
    processInput env db cid input =
      ({ message := "Avatar creation cancelled.", sessionEnded := true }, sessionDelete db cid) ∧
    findSession (sessionDelete db cid) cid = none := by
  constructor
  · simp [processInput, hfind, hc]
  · rw [findSession, sessionDelete]
    simp only [List.find?_eq_none, List.mem_filter]
    rintro x ⟨-, hx⟩
    simpa using hx

def c8db : DB :=
  { sessions := [{ connectionId := "conn-1", currentStep := .confirmation }],
    configs := [], presentations := [] }

/-- Witness for C8: cancelling at the confirmation step. -/
theorem C8_cancel_any_step_witness :
    processInput c9env c8db "conn-1" "  CANCEL " =
      ({ message := "Avatar creation cancelled.", sessionEnded := true },
       sessionDelete c8db "conn-1") ∧
    findSession (sessionDelete c8db "conn-1") "conn-1" = none :=
  C8_cancel_any_step c9env c8db "conn-1" "  CANCEL "
    { connectionId := "conn-1", currentStep := .confirmation } rfl (by decide)

/-- Claim C5 counterexample: when the catalog fetch fails, `startWizard` reports
the failure, but the session row created at the start of the call is not
deleted — `hasActiveSession` is true afterwards, not false as claimed. -/
theorem C5_counterexample :
    (startWizard { sessions := [], configs := [], presentations := [] } "conn-1"
        (Except.error "network down")).1.sessionEnded = true ∧
    hasActiveSession (startWizard { sessions := [], configs := [], presentations := [] } "conn-1"
        (Except.error "network down")).2 "conn-1" = true := by
  exact ⟨rfl, rfl⟩

/-- Claim C5 (amended): on a catalog-fetch failure `startWizard` returns the
CatalogUnavailable message with the `sessionEnded` response flag set, but the
freshly created session row survives: the user still has an active session at
`avatar_selection`. -/
theorem C5_catalog_failure_keeps_session (db : DB) (cid e : String) :
    (startWizard db cid (Except.error e)).1 =
      { message := "Failed to load avatars. Please try again later.\nError: " ++ e,
        sessionEnded := true } ∧
    findSession (startWizard db cid (Except.error e)).2 cid =
      some { connectionId := cid, currentStep := .avatar_selection } ∧
    hasActiveSession (startWizard db cid (Except.error e)).2 cid = true := by
  refine ⟨rfl, ?_, ?_⟩
  · simp [startWizard, sessionCreate, findSession]
  · simp [hasActiveSession, startWizard, sessionCreate, findSession]

/-- Claim C4 counterexample: a successful `createPresentationRequest` on a store
with no presentation rows returns the correlation id `px-77`, yet no
PendingPresentation row keyed by `px-77` exists afterwards (the store comes back
unchanged). -/
theorem C4_counterexample :
    createPresentationRequest (some "def-1")
        { sessions := [], configs := [], presentations := [] } "cfg-1" (Except.ok "px-77") =
      Except.ok ("px-77", { sessions := [], configs := [], presentations := [] }) ∧
    findPresentationByProofExchangeId
        { sessions := [], configs := [], presentations := [] } "px-77" = none := by
  exact ⟨rfl, rfl⟩

/-- Claim C4 (amended): a successful `createPresentationRequest` returns the
credential authority's correlation id and performs no store write at all: the
presentation store (and every other store) is returned unchanged, so no
PendingPresentation row is recorded by this path. -/
theorem C4_no_presentation_row (d : String) (db : DB) (configId pxid : String) :
    createPresentationRequest (some d) db configId (Except.ok pxid) =
      Except.ok (pxid, db) := rfl

def c3cfg : AvatarConfig :=
  { id := "cfg-1", connectionId := "conn-1", name := "Helper", avatarId := "av",
    voiceId := "vo", language := "en", credentialDefinitionId := some "def-1",
    credentialIssuedAt := some 1 }

def c3pres : PendingPresentation :=
  { id := "p1", proofExchangeId := "px-1", connectionId := some "conn-1",
    avatarConfigId := "cfg-1", status := .pending }

def c3db : DB := { sessions := [], configs := [c3cfg], presentations := [c3pres] }

/-- Claim C3: the callback route applies its status update with no guard on the
current status, so a second callback with `verified=false` silently overwrites a
`verified` presentation to `rejected`: starting from a pending row, a
`verified=true` callback makes it `verified`, and a following `verified=false`
callback for the same proof-exchange id makes it `rejected`. -/
theorem C3_verified_overwritten_to_rejected :
    ((findPresentationByProofExchangeId
        (presentationCallback c3db "px-1" true none [] 5).2 "px-1").map
       PendingPresentation.status = some .verified) ∧
    ((findPresentationByProofExchangeId
        (presentationCallback (presentationCallback c3db "px-1" true none [] 5).2
          "px-1" false none [] 6).2 "px-1").map
       PendingPresentation.status = some .rejected) := by
  exact ⟨rfl, rfl⟩

def c1cfg : AvatarConfig :=
  { id := "cfg-1", connectionId := "conn-1", name := "Helper", avatarId := "av",
    voiceId := "vo", language := "en", credentialDefinitionId := some "def-1",
    credentialIssuedAt := none }

def c1db : DB := { sessions := [], configs := [c1cfg], presentations := [] }

def c1env : AccessEnv :=
  { credentialServiceConfigured := true, proofRequestResult := .ok (),
    customSession := .ok { livekitUrl := "wss://lk", livekitToken := "tok" }, enc := id }

/-- Claim C1 counterexample: a config that is protected in the claim's sense
(`credentialDefinitionId` set) but has no `credentialIssuedAt` stamp is started
directly by the access command handler: zero proof requests are issued and the
session starts in the handler itself. -/
theorem C1_counterexample :
    c1cfg.credentialDefinitionId = some "def-1" ∧
    (handleAccessCommand c1env c1db "conn-1" "Helper").proofRequests = [] ∧
    (handleAccessCommand c1env c1db "conn-1" "Helper").sessionStarts = ["cfg-1"] := by
  refine ⟨rfl, ?_, ?_⟩ <;> rfl

/-- Claim C1 (amended): the access-command protection gate is
`credentialService.isConfigured() && credentialIssuedAt` — not
`credentialDefinitionId` as claimed. When the gate holds and the proof request
succeeds, exactly one proof request is issued and no session is started in the
handler (session start is then driven by the `identity-proof-submit` handler);
when `credentialIssuedAt` is unset — even with `credentialDefinitionId` set — or
the coordinator is unconfigured, the found config is started directly with no
proof request. -/
theorem C1_access_gate (env : AccessEnv) (db : DB) (cid name : String) (cfg : AvatarConfig)
    (hname : ¬ name = "")
    (hfind : findConfigByConnectionIdAndName db cid name = some cfg) :
    (env.credentialServiceConfigured = true →
      cfg.credentialIssuedAt.isSome = true →
      env.proofRequestResult = Except.ok () →
      (handleAccessCommand env db cid name).proofRequests = [(cid, cfg.id)] ∧
      (handleAccessCommand env db cid name).sessionStarts = []) ∧
    ((env.credentialServiceConfigured = false ∨ cfg.credentialIssuedAt = none) →
      (handleAccessCommand env db cid name).proofRequests = [] ∧
      ∀ creds, env.customSession = Except.ok creds →
        (handleAccessCommand env db cid name).sessionStarts = [cfg.id]) := by
  have hb : (name == "") = false := beq_eq_false_iff_ne.mpr hname
  constructor
  · intro hconf hiss hok
    simp [handleAccessCommand, hb, hfind, hconf, hiss, hok]
  · intro hgate
    have hg : (env.credentialServiceConfigured && cfg.credentialIssuedAt.isSome) = false := by
      rcases hgate with h | h
      · simp [h]
      · simp [h]
    constructor
    · cases hcs : env.customSession with
      | ok creds => simp [handleAccessCommand, hb, hfind, hg, startCustomAvatarSession, hcs]
      | error e => simp [handleAccessCommand, hb, hfind, hg, startCustomAvatarSession, hcs]
    · intro creds hcs
      simp [handleAccessCommand, hb, hfind, hg, startCustomAvatarSession, hcs]

def c1wcfg : AvatarConfig :=
  { id := "cfg-1", connectionId := "conn-1", name := "Helper", avatarId := "av",
    voiceId := "vo", language := "en", credentialDefinitionId := some "def-1",
    credentialIssuedAt := some 1 }

def c1wdb : DB := { sessions := [], configs := [c1wcfg], presentations := [] }

/-- Witness for C1: a config with the issued stamp set gets exactly one proof
request and no direct session start. -/
theorem C1_access_gate_witness :
    (handleAccessCommand c1env c1wdb "conn-1" "Helper").proofRequests = [("conn-1", "cfg-1")] ∧
    (handleAccessCommand c1env c1wdb "conn-1" "Helper").sessionStarts = [] :=
  (C1_access_gate c1env c1wdb "conn-1" "Helper" c1wcfg (by decide) rfl).1 rfl rfl rfl

def c2env : AccessEnv :=
  { credentialServiceConfigured := true, proofRequestResult := .ok (),
    customSession := .error "no session", enc := id }

def c2db : DB := { sessions := [], configs := [], presentations := [] }

/-- Claim C2 counterexample: an empty submitted-proof-item list does not produce
a conversational reply — the handler returns having sent no message at all. -/
theorem C2_counterexample :
    (handleIdentityProofSubmit c2env c2db "conn-1" []).messages = [] := rfl

/-- Claim C2 (amended): the handler inspects only the first submitted proof item
(further items are ignored, not rejected) and a session is started only when
that item has `verified=true`, a non-empty `avatar_config_id` claim, an
`owner_connection_id` claim equal to the requesting connection id, and the
referenced config exists; an empty item list is acknowledged silently, with no
conversational reply. -/
theorem C2_proof_submit_gating (env : AccessEnv) (db : DB) (cid : String)
    (items : List ProofItem) :
    ((handleIdentityProofSubmit env db cid items).sessionStarts ≠ [] →
      ∃ item rest idClaim cfg,
        items = item :: rest ∧
        item.verified = true ∧
        item.claims.find? (fun c => c.name == "avatar_config_id") = some idClaim ∧
        ¬ idClaim.value = "" ∧
        (item.claims.find? (fun c => c.name == "owner_connection_id")).map ProofClaim.value =
          some cid ∧
        findConfigById db idClaim.value = some cfg ∧
        (handleIdentityProofSubmit env db cid items).sessionStarts = [cfg.id]) ∧
    (items = [] →
      handleIdentityProofSubmit env db cid items =
        { messages := [], proofRequests := [], sessionStarts := [] }) := by
  cases items with
  | nil =>
    exact ⟨fun hne => absurd rfl hne, fun _ => rfl⟩
  | cons item rest =>
    refine ⟨?_, by intro h; cases h⟩
    intro hne
    cases hv : item.verified with
    | false => simp [handleIdentityProofSubmit, hv] at hne
    | true =>
      cases hid : item.claims.find? (fun c => c.name == "avatar_config_id") with
      | none => simp [handleIdentityProofSubmit, hv, hid] at hne
      | some idClaim =>
        by_cases hval : idClaim.value = ""
        · simp [handleIdentityProofSubmit, hv, hid, hval] at hne
        · by_cases howner :
            (item.claims.find? (fun c => c.name == "owner_connection_id")).map
              ProofClaim.value = some cid
          · cases hcfg : findConfigById db idClaim.value with
            | none => simp [handleIdentityProofSubmit, hv, hid, hval, howner, hcfg] at hne
            | some cfg =>
              cases hcs : env.customSession with
              | error e =>
                simp [handleIdentityProofSubmit, hv, hid, hval, howner, hcfg, hcs] at hne
              | ok creds =>
                exact ⟨item, rest, idClaim, cfg, rfl, hv, hid, hval, howner, hcfg, by
                  simp [handleIdentityProofSubmit, hv, hid, hval, howner, hcfg, hcs]⟩
          · simp [handleIdentityProofSubmit, hv, hid, hval, howner] at hne

/-- Witness for C2: the empty-item-list branch at a concrete store. -/
theorem C2_proof_submit_gating_witness :
    handleIdentityProofSubmit c2env c2db "conn-1" [] =
      { messages := [], proofRequests := [], sessionStarts := [] } :=
  (C2_proof_submit_gating c2env c2db "conn-1" []).2 rfl

/-- Claim C6: at the `name_input` step, a trimmed input of valid length whose
text case-insensitively equals the name of an existing AvatarConfig of the same
owner is rejected with a re-prompt and the whole store — hence the session's
`currentStep` and all selections — is unchanged; with no such duplicate the name
is recorded and the wizard advances to `prompt_input`. -/
theorem C6_duplicate_name (env : WizardEnv) (db : DB) (cid input : String)
    (s : CreationSession)
    (hfind : findSession db cid = some s)
    (hstep : s.currentStep = WizardStep.name_input)
    (hnc : ¬ jsToLower (jsTrim input) = "cancel")
    (hnc2 : ¬ jsToLower (jsTrim input) = "/cancel")
    (hmin : 2 ≤ (jsTrim input).length)
    (hmax : (jsTrim input).length ≤ 100) :
    (∀ cfg, findConfigByConnectionIdAndName db cid (jsTrim input) = some cfg →
      processInput env db cid input =
        ({ message := "You already have an avatar named \"" ++ jsTrim input ++
            "\". Please choose a different name." }, db)) ∧
    (findConfigByConnectionIdAndName db cid (jsTrim input) = none →
      processInput env db cid input =
        ({ message := "Name: \"" ++ jsTrim input ++ "\" set.\n\nStep 5/5: Personality Prompt (Optional)\n\nDescribe how your avatar should behave (e.g., \"You are a friendly business consultant who helps with strategy.\").\n\nOr type \"skip\" to use the default personality." },
         sessionUpdate db cid (fun t =>
           { t with customName := some (jsTrim input),
                    currentStep := WizardStep.prompt_input }))) := by
  have hb1 : (jsToLower (jsTrim input) == "cancel") = false := beq_eq_false_iff_ne.mpr hnc
  have hb2 : (jsToLower (jsTrim input) == "/cancel") = false := beq_eq_false_iff_ne.mpr hnc2
  have hne : ¬ jsTrim input = "" := by
    intro h
    rw [h] at hmin
    exact absurd hmin (by decide)
  have hb0 : (jsTrim input == "") = false := beq_eq_false_iff_ne.mpr hne
  have hlt : ¬ (jsTrim input).length < 2 := by omega
  have hgt : ¬ (jsTrim input).length > 100 := by omega
  constructor
  · intro cfg hdup
    simp [processInput, hfind, hb1, hb2, hstep, handleNameInput, hb0, hlt, hgt, hdup]
  · intro hnodup
    simp [processInput, hfind, hb1, hb2, hstep, handleNameInput, hb0, hlt, hgt, hnodup]

def c6cfg : AvatarConfig :=
  { id := "cfg-1", connectionId := "conn-1", name := "Helper", avatarId := "av",
    voiceId := "vo", language := "en" }

def c6session : CreationSession :=
  { connectionId := "conn-1", currentStep := .name_input, selectedAvatarId := some "av",
    selectedVoiceId := some "vo", selectedLanguage := some "en" }

def c6db : DB := { sessions := [c6session], configs := [c6cfg], presentations := [] }

/-- Witness for C6: the owner of "Helper" enters " helper " and is re-prompted
with the store unchanged. -/
theorem C6_duplicate_name_witness :
    processInput c9env c6db "conn-1" " helper " =
      ({ message := "You already have an avatar named \"helper\". Please choose a different name." },
       c6db) :=
  (C6_duplicate_name c9env c6db "conn-1" " helper " c6session rfl rfl (by decide) (by decide)
      (by decide) (by decide)).1 c6cfg rfl

def c7session : CreationSession :=
  { connectionId := "conn-1", currentStep := .language_selection }

def c7db : DB := { sessions := [c7session], configs := [], presentations := [] }

/-- Claim C7 counterexample: at the language-selection step the non-numeric
input "abc" leaves the store unchanged, but the re-prompt does not re-render the
same list: the reply is the 44-character valid-range message, which cannot
contain the 99-character rendered language list. -/
theorem C7_counterexample :
    (processInput c9env c7db "conn-1" "abc").1.message =
      "Please enter a valid number between 1 and 9." ∧
    (processInput c9env c7db "conn-1" "abc").2 = c7db ∧
    ¬ languageListString.data <:+: (processInput c9env c7db "conn-1" "abc").1.message.data := by
  refine ⟨rfl, rfl, ?_⟩
  intro hinf
  have hle := hinf.length_le
  revert hle
  decide

/-- Claim C7 (amended): at each of the three selection steps, a non-numeric or
out-of-range input leaves the entire store — hence the session's `currentStep`
and all recorded selections — unchanged and replies with the fixed valid-range
re-prompt for that step's list; the list itself is not re-rendered (see the
counterexample). -/
theorem C7_invalid_selection_frame (env : WizardEnv) (db : DB) (cid input : String)
    (s : CreationSession)
    (hfind : findSession db cid = some s)
    (hnc : ¬ jsToLower (jsTrim input) = "cancel")
    (hnc2 : ¬ jsToLower (jsTrim input) = "/cancel") :
    (s.currentStep = WizardStep.avatar_selection →
      (jsParseInt (jsTrim input) = none ∨
        ∃ n : Int, jsParseInt (jsTrim input) = some n ∧
          (n < 1 ∨ n > ((env.avatars.take 20).length : Int))) →
      processInput env db cid input =
        ({ message := invalidNumberMessage (env.avatars.take 20).length }, db)) ∧
    (s.currentStep = WizardStep.voice_selection →
      (jsParseInt (jsTrim input) = none ∨
        ∃ n : Int, jsParseInt (jsTrim input) = some n ∧
          (n < 1 ∨ n > ((env.voices.take 20).length : Int))) →
      processInput env db cid input =
        ({ message := invalidNumberMessage (env.voices.take 20).length }, db)) ∧
    (s.currentStep = WizardStep.language_selection →
      (jsParseInt (jsTrim input) = none ∨
        ∃ n : Int, jsParseInt (jsTrim input) = some n ∧
          (n < 1 ∨ n > (SUPPORTED_LANGUAGES.length : Int))) →
      processInput env db cid input =
        ({ message := invalidNumberMessage SUPPORTED_LANGUAGES.length }, db)) := by
  have hb1 : (jsToLower (jsTrim input) == "cancel") = false := beq_eq_false_iff_ne.mpr hnc
  have hb2 : (jsToLower (jsTrim input) == "/cancel") = false := beq_eq_false_iff_ne.mpr hnc2
  refine ⟨?_, ?_, ?_⟩ <;> intro hstep hbad
  · rcases hbad with hparse | ⟨n, hparse, hrange⟩
    · simp [processInput, hfind, hb1, hb2, hstep, handleAvatarSelection, hparse]
    · simp only [processInput, hfind, hb1, hb2, hstep, handleAvatarSelection, hparse]
      rw [dif_pos hrange]
      simp
  · rcases hbad with hparse | ⟨n, hparse, hrange⟩
    · simp [processInput, hfind, hb1, hb2, hstep, handleVoiceSelection, hparse]
    · simp only [processInput, hfind, hb1, hb2, hstep, handleVoiceSelection, hparse]
      rw [dif_pos hrange]
      simp
  · rcases hbad with hparse | ⟨n, hparse, hrange⟩
    · simp [processInput, hfind, hb1, hb2, hstep, handleLanguageSelection, hparse]
    · simp only [processInput, hfind, hb1, hb2, hstep, handleLanguageSelection, hparse]
      simp [hrange]

/-- Witness for C7: the language-selection branch at a concrete store with
input "abc". -/
theorem C7_invalid_selection_frame_witness :
    processInput c9env c7db "conn-1" "abc" =
      ({ message := invalidNumberMessage SUPPORTED_LANGUAGES.length }, c7db) :=
  (C7_invalid_selection_frame c9env c7db "conn-1" "abc" c7session rfl (by decide)
      (by decide)).2.2 rfl (Or.inl rfl)

/-- A decimal digit is not whitespace. -/
theorem digit_not_whitespace {c : Char} (h : c.isDigit = true) : c.isWhitespace = false := by
  cases hw : c.isWhitespace
  · rfl
  · exfalso
    have hmem : ((c = ' ' ∨ c = '\t') ∨ c = '\r') ∨ c = '\n' := by
      simpa [Char.isWhitespace] using hw
    rcases hmem with ((h1 | h1) | h1) | h1 <;> subst h1 <;> exact absurd h (by decide)

/-- A decimal digit is not the minus sign. -/
theorem digit_ne_minus {c : Char} (h : c.isDigit = true) : (c == '-') = false := by
  cases hm : c == '-'
  · rfl
  · have hc : c = '-' := eq_of_beq hm
    subst hc
    exact absurd h (by decide)

/-- A decimal digit is not the plus sign. -/
theorem digit_ne_plus {c : Char} (h : c.isDigit = true) : (c == '+') = false := by
  cases hm : c == '+'
  · rfl
  · have hc : c = '+' := eq_of_beq hm
    subst hc
    exact absurd h (by decide)

/-- `takeWhile` cuts a satisfying run exactly at a non-satisfying head of the
remainder. -/
theorem takeWhile_append_run (p : Char → Bool) (ds rest : List Char)
    (hds : ∀ c ∈ ds, p c = true) (hrest : ∀ c, rest.head? = some c → p c = false) :
    (ds ++ rest).takeWhile p = ds := by
  induction ds with
  | nil =>
    cases rest with
    | nil => rfl
    | cons r rs => simp [List.takeWhile_cons, hrest r rfl]
  | cons d ds ih =>
    have hd : p d = true := hds d (List.mem_cons_self d ds)
    rw [List.cons_append, List.takeWhile_cons, hd]
    simp only [if_true]
    rw [ih (fun c hc => hds c (List.mem_cons_of_mem d hc))]

/-- `parseInt` reads exactly the leading digit run: on a string whose characters
are a digit run followed by a remainder that does not start with a digit, it
returns the run's value, whatever the remainder is. -/
theorem jsParseInt_leading_run (s : String) (d : Char) (ds rest : List Char)
    (hdata : s.data = d :: (ds ++ rest))
    (hd : d.isDigit = true) (hds : ∀ c ∈ ds, c.isDigit = true)
    (hrest : ∀ c, rest.head? = some c → c.isDigit = false) :
    jsParseInt s = some ((digitsToNat (d :: ds) : Int)) := by
  have hnws : d.isWhitespace = false := digit_not_whitespace hd
  have htw : (d :: (ds ++ rest)).takeWhile Char.isDigit = d :: ds := by
    have hall : ∀ c ∈ d :: ds, c.isDigit = true := by
      intro c hc
      rcases List.mem_cons.mp hc with h1 | h1
      · subst h1; exact hd
      · exact hds c h1
    have := takeWhile_append_run Char.isDigit (d :: ds) rest hall hrest
    simpa using this
  unfold jsParseInt
  rw [hdata, List.dropWhile_cons, hnws]
  simp only [Bool.false_eq_true, if_false, digit_ne_minus hd, digit_ne_plus hd,
    parseLeadingNat, htw]
  rfl

def c10session : CreationSession :=
  { connectionId := "conn-1", currentStep := .language_selection }

def c10db : DB := { sessions := [c10session], configs := [], presentations := [] }

/-- Claim C10: at a selection step the input is accepted through leading-integer
parsing: whenever the trimmed input consists of a digit run of value `n` in
range, followed by an arbitrary remainder not starting with a digit (so the
whole input need not be a numeral — e.g. "2 please" or "1.9"), the wizard
records the n-th entry and advances; stated here at the language-selection step,
whose parse (`parseInt(input.trim(), 10)`) is shared verbatim by the avatar and
voice selection handlers. -/
theorem C10_leading_integer_accepted (env : WizardEnv) (db : DB) (cid input : String)
    (s : CreationSession) (d : Char) (ds rest : List Char) (n : Nat)
    (hfind : findSession db cid = some s)
    (hstep : s.currentStep = WizardStep.language_selection)
    (hnc : ¬ jsToLower (jsTrim input) = "cancel")
    (hnc2 : ¬ jsToLower (jsTrim input) = "/cancel")
    (hdata : (jsTrim input).data = d :: (ds ++ rest))
    (hd : d.isDigit = true) (hds : ∀ c ∈ ds, c.isDigit = true)
    (hrest : ∀ c, rest.head? = some c → c.isDigit = false)
    (hn : digitsToNat (d :: ds) = n) (h1 : 1 ≤ n) (h9 : n ≤ 9) :
    ∃ lang, SUPPORTED_LANGUAGES.get? (n - 1) = some lang ∧
      processInput env db cid input =
        ({ message := "Language: " ++ lang.name ++
            " selected.\n\nStep 4/5: Name Your Avatar\n\nGive your avatar a memorable name (e.g., \"Business Helper\", \"Travel Guide\")." },
         sessionUpdate db cid (fun t =>
           { t with selectedLanguage := some lang.code,
                    currentStep := WizardStep.name_input })) := by
  have hb1 : (jsToLower (jsTrim input) == "cancel") = false := beq_eq_false_iff_ne.mpr hnc
  have hb2 : (jsToLower (jsTrim input) == "/cancel") = false := beq_eq_false_iff_ne.mpr hnc2
  have hparse : jsParseInt (jsTrim input) = some ((n : Nat) : Int) := by
    rw [jsParseInt_leading_run (jsTrim input) d ds rest hdata hd hds hrest, hn]
  have hlen : (SUPPORTED_LANGUAGES.length : Int) = 9 := rfl
  have hcond : ¬(((n : Nat) : Int) < 1 ∨ ((n : Nat) : Int) > (SUPPORTED_LANGUAGES.length : Int)) := by
    omega
  have hbound : n - 1 < SUPPORTED_LANGUAGES.length := by
    have : SUPPORTED_LANGUAGES.length = 9 := rfl
    omega
  have hidx : (((n : Nat) : Int) - 1).toNat = n - 1 := by omega
  refine ⟨SUPPORTED_LANGUAGES.get ⟨n - 1, hbound⟩, List.get?_eq_get hbound, ?_⟩
  simp only [processInput, hfind, hb1, hb2, hstep]
  rw [if_neg (by simp)]
  simp only [handleLanguageSelection, hparse]
  rw [dif_neg hcond]
  simp [hidx]

/-- Witness for C10: "2 please" — not a numeral — selects the second language
(Spanish) at the language step. -/
theorem C10_leading_integer_accepted_witness :
    ∃ lang, SUPPORTED_LANGUAGES.get? 1 = some lang ∧
      processInput c9env c10db "conn-1" "2 please" =
        ({ message := "Language: " ++ lang.name ++
            " selected.\n\nStep 4/5: Name Your Avatar\n\nGive your avatar a memorable name (e.g., \"Business Helper\", \"Travel Guide\")." },
         sessionUpdate c10db "conn-1" (fun t =>
           { t with selectedLanguage := some lang.code,
                    currentStep := WizardStep.name_input })) :=
  C10_leading_integer_accepted c9env c10db "conn-1" "2 please" c10session '2' []
    (" please".data) 2 rfl rfl (by decide) (by decide) rfl rfl
    (fun c hc => absurd hc (List.not_mem_nil c))
    (by
      intro c hc
      rw [show (" please".data).head? = some ' ' from rfl] at hc
      injection hc with h
      subst h
      rfl)
    rfl (by decide) (by decide)

end LiveAvatar
